import Mathlib

/-!
Verification of the MTGP32 CUDA sample (`src/mtgp32-cuda256-tex.cu`,
MTGP32-23209 variant, THREAD_NUM = 256, LARGE_SIZE = 1024, N = 726).

Shallow embedding conventions:
* 32-bit words are `Nat` with an explicit `% 2 ^ 32` exactly where the C
  program's `uint32_t` arithmetic can overflow (only the left shift in
  `para_rec` can; `&&&`, `^^^`, `>>>` never grow their arguments).
* device memory arrays (the shared `status[LARGE_SIZE]` buffer and the saved
  `d_status[bid].status[N]` vector) are total functions `Nat → Nat`, read as
  flat memory.  An index `≥ LARGE_SIZE` (resp. `≥ N`) is outside the declared
  array: an access there touches whatever the flat memory holds at that
  address (for the saved state, index `N + t` addresses word `t` of the next
  block's state record).  The content of shared memory at kernel entry is
  undefined, so it is an explicit parameter `g` of each kernel invocation,
  and the saved-state memory before `status_write` is the explicit parameter
  `dOld`.
* one CUDA block is modelled (`bid = 0`); each block's computation only
  depends on its own slice of every table, so this loses nothing.
* the lanes of a block run the documented lock-step schedule: within one
  phase all 256 threads first read the pre-phase buffer, then write their
  disjoint slots; the four phases of a batch run in order.  This is the
  deterministic semantics the kernel's barrier placement is designed for.
-/

namespace MTGP32

/-- source line 26: `#define N 726` (state vector length, MEXP 23209). -/
def N : Nat := 726

/-- source line 27: `#define THREAD_NUM 256`. -/
def THREAD_NUM : Nat := 256

/-- source line 28: `#define LARGE_SIZE (THREAD_NUM * 4)`. -/
def LARGE_SIZE : Nat := THREAD_NUM * 4

/-- source line 31: `#define TBL_SIZE 16`. -/
def TBL_SIZE : Nat := 16

/-- source line 53: `__constant__ uint32_t mask = 0xff800000;`. -/
def mask : Nat := 0xff800000

/-- the `uint32_t` modulus. -/
def W32 : Nat := 2 ^ 32

/-- the fields of the host parameter record `mtgp32_params_fast_t` that the
program uses (`pos`, `sh1`, `sh2` and the three 16-entry lookup tables that
`make_constant` / `make_texture` upload for one block).  The per-block device
tables `pos_tbl[bid]`, `sh1_tbl[bid]`, `sh2_tbl[bid]` and the texture slices
`tex[bid*16 ..]` are filled verbatim from one such record, so the device
functions below take the record directly. -/
structure mtgp32_params_fast_t where
  pos : Nat
  sh1 : Nat
  sh2 : Nat
  tbl : List Nat
  tmp_tbl : List Nat
  flt_tmp_tbl : List Nat

instance : Inhabited mtgp32_params_fast_t := ⟨⟨0, 0, 0, [], [], []⟩⟩

/-- source lines 70-78, `para_rec`: the recursion formula.
`X = (X1 & mask) ^ X2; X ^= X << sh1; Y = X ^ (Y >> sh2);
MAT = tex_param[bid*16 + (Y & 0x0f)]; return Y ^ MAT;`
The shift left is `uint32_t` arithmetic, hence the `% W32`. -/
def para_rec (p : mtgp32_params_fast_t) (X1 X2 Y : Nat) : Nat :=
  let X := (X1 &&& mask) ^^^ X2
  let X := X ^^^ ((X <<< p.sh1) % W32)
  let Y := X ^^^ (Y >>> p.sh2)
  Y ^^^ p.tbl.getD (Y &&& 0x0f) 0

/-- source lines 88-95, `temper`: integer tempering.
`T ^= T >> 16; T ^= T >> 8; MAT = tex_temper[bid*16 + (T & 0x0f)];
return V ^ MAT;` -/
def temper (p : mtgp32_params_fast_t) (V T : Nat) : Nat :=
  let T := T ^^^ (T >>> 16)
  let T := T ^^^ (T >>> 8)
  V ^^^ p.tmp_tbl.getD (T &&& 0x0f) 0

/-- source lines 107-116, `temper_single`: tempering combined with conversion
to IEEE-754 single format.  `T ^= T >> 16; T ^= T >> 8;
MAT = tex_single[bid*16 + (T & 0x0f)]; r = (V >> 9) ^ MAT; return r;` -/
def temper_single (p : mtgp32_params_fast_t) (V T : Nat) : Nat :=
  let T := T ^^^ (T >>> 16)
  let T := T ^^^ (T >>> 8)
  (V >>> 9) ^^^ p.flt_tmp_tbl.getD (T &&& 0x0f) 0

/-- source lines 127-139, `status_read`: for every `tid < THREAD_NUM`,
`status[LARGE_SIZE-N+tid] = d[tid]`,
`status[LARGE_SIZE-N+THREAD_NUM+tid] = d[THREAD_NUM+tid]`, and — guarded by
`if (tid < N - THREAD_NUM)`, which is vacuously true for every
`tid < THREAD_NUM` since `N - THREAD_NUM = 470` —
`status[6*THREAD_NUM-N+tid] = d[2*THREAD_NUM+tid]`.  The third copy hence
runs for all 256 threads: it writes buffer slots `810..1065` (the last 42
beyond `LARGE_SIZE - 1`) from saved-state indices `512..767` (the last 42
beyond `N - 1`).  `g` is the shared-memory content before the copy (slots
the copy does not touch keep it); `d` is the flat memory at
`d_status[bid].status` (index `N + t` addresses the next block's word `t`).
The third branch keeps both the launch bound `tid < THREAD_NUM` and the
source's guard `tid < N - THREAD_NUM`. -/
def status_read (g d : Nat → Nat) : Nat → Nat := fun j =>
  if LARGE_SIZE - N ≤ j ∧ j < LARGE_SIZE - N + THREAD_NUM then
    d (j - (LARGE_SIZE - N))
  else if LARGE_SIZE - N + THREAD_NUM ≤ j ∧ j < LARGE_SIZE - N + 2 * THREAD_NUM then
    d (j - (LARGE_SIZE - N))
  else if 6 * THREAD_NUM - N ≤ j ∧ j < 6 * THREAD_NUM - N + THREAD_NUM ∧
      j - (6 * THREAD_NUM - N) < N - THREAD_NUM then
    d (2 * THREAD_NUM + (j - (6 * THREAD_NUM - N)))
  else g j

/-- source lines 150-162, `status_write`: for every `tid < THREAD_NUM`,
`d[tid] = status[LARGE_SIZE-N+tid]`,
`d[THREAD_NUM+tid] = status[LARGE_SIZE-N+THREAD_NUM+tid]`, and — under the
same vacuously true guard `if (tid < N - THREAD_NUM)` —
`d[2*THREAD_NUM+tid] = status[6*THREAD_NUM-N+tid]`: saved-state indices
`512..767` are overwritten, the last 42 of them beyond `N - 1` (the next
block's words `0..41`), from buffer slots `810..1065`, the last 42 of them
beyond `LARGE_SIZE - 1`.  `dOld` is the flat saved-state memory before the
write; indices this block does not write keep it. -/
def status_write (b dOld : Nat → Nat) : Nat → Nat := fun k =>
  if k < THREAD_NUM then b (LARGE_SIZE - N + k)
  else if k < 2 * THREAD_NUM then b (LARGE_SIZE - N + k)
  else if 2 * THREAD_NUM ≤ k ∧ k < 3 * THREAD_NUM ∧
      k - 2 * THREAD_NUM < N - THREAD_NUM then
    b (6 * THREAD_NUM - N + (k - 2 * THREAD_NUM))
  else dOld k

/-- phase 1 of both kernels (source lines 185-190 and 251-256): thread
`tid < THREAD_NUM` writes slot `tid` with
`para_rec(status[LARGE_SIZE-N+tid], status[LARGE_SIZE-N+tid+1],
status[LARGE_SIZE-N+tid+pos])`; other slots are untouched. -/
def phase1 (p : mtgp32_params_fast_t) (b : Nat → Nat) : Nat → Nat := fun s =>
  if s < THREAD_NUM then
    para_rec p (b (LARGE_SIZE - N + s)) (b (LARGE_SIZE - N + s + 1))
      (b (LARGE_SIZE - N + s + p.pos))
  else b s

/-- phase 2 of `mtgp32_uint32_kernel` (source lines 194-199): thread `tid`
writes slot `THREAD_NUM + tid` with
`para_rec(status[(5*THREAD_NUM-N+tid) % LARGE_SIZE],
status[(5*THREAD_NUM-N+tid+1) % LARGE_SIZE],
status[(5*THREAD_NUM-N+tid+pos) % LARGE_SIZE])`. -/
def phase2u (p : mtgp32_params_fast_t) (b : Nat → Nat) : Nat → Nat := fun s =>
  if THREAD_NUM ≤ s ∧ s < 2 * THREAD_NUM then
    para_rec p (b ((5 * THREAD_NUM - N + (s - THREAD_NUM)) % LARGE_SIZE))
      (b ((5 * THREAD_NUM - N + (s - THREAD_NUM) + 1) % LARGE_SIZE))
      (b ((5 * THREAD_NUM - N + (s - THREAD_NUM) + p.pos) % LARGE_SIZE))
  else b s

/-- phase 2 of `mtgp32_single_kernel` (source lines 260-265): identical to
`phase2u` except that NO `% LARGE_SIZE` reduction is applied:
`para_rec(status[5*THREAD_NUM-N+tid], status[5*THREAD_NUM-N+tid+1],
status[5*THREAD_NUM-N+tid+pos])`. -/
def phase2s (p : mtgp32_params_fast_t) (b : Nat → Nat) : Nat → Nat := fun s =>
  if THREAD_NUM ≤ s ∧ s < 2 * THREAD_NUM then
    para_rec p (b (5 * THREAD_NUM - N + (s - THREAD_NUM)))
      (b (5 * THREAD_NUM - N + (s - THREAD_NUM) + 1))
      (b (5 * THREAD_NUM - N + (s - THREAD_NUM) + p.pos))
  else b s

/-- phase 3 of `mtgp32_uint32_kernel` (source lines 205-210): thread `tid`
writes slot `2*THREAD_NUM + tid` with
`para_rec(status[6*THREAD_NUM-N+tid], status[6*THREAD_NUM-N+tid+1],
status[6*THREAD_NUM-N+tid+pos])` — no `% LARGE_SIZE` reduction here. -/
def phase3u (p : mtgp32_params_fast_t) (b : Nat → Nat) : Nat → Nat := fun s =>
  if 2 * THREAD_NUM ≤ s ∧ s < 3 * THREAD_NUM then
    para_rec p (b (6 * THREAD_NUM - N + (s - 2 * THREAD_NUM)))
      (b (6 * THREAD_NUM - N + (s - 2 * THREAD_NUM) + 1))
      (b (6 * THREAD_NUM - N + (s - 2 * THREAD_NUM) + p.pos))
  else b s

/-- phase 3 of `mtgp32_single_kernel` (source lines 271-276): identical to
`phase3u` except that the `% LARGE_SIZE` reduction IS applied:
`para_rec(status[(6*THREAD_NUM-N+tid) % LARGE_SIZE], ...)`. -/
def phase3s (p : mtgp32_params_fast_t) (b : Nat → Nat) : Nat → Nat := fun s =>
  if 2 * THREAD_NUM ≤ s ∧ s < 3 * THREAD_NUM then
    para_rec p (b ((6 * THREAD_NUM - N + (s - 2 * THREAD_NUM)) % LARGE_SIZE))
      (b ((6 * THREAD_NUM - N + (s - 2 * THREAD_NUM) + 1) % LARGE_SIZE))
      (b ((6 * THREAD_NUM - N + (s - 2 * THREAD_NUM) + p.pos) % LARGE_SIZE))
  else b s

/-- phase 4 of both kernels (source lines 214-219 and 283-288): thread `tid`
writes slot `3*THREAD_NUM + tid` with
`para_rec(status[3*THREAD_NUM-N+tid], status[3*THREAD_NUM-N+tid+1],
status[3*THREAD_NUM-N+tid+pos])`. -/
def phase4 (p : mtgp32_params_fast_t) (b : Nat → Nat) : Nat → Nat := fun s =>
  if 3 * THREAD_NUM ≤ s ∧ s < 4 * THREAD_NUM then
    para_rec p (b (3 * THREAD_NUM - N + (s - 3 * THREAD_NUM)))
      (b (3 * THREAD_NUM - N + (s - 3 * THREAD_NUM) + 1))
      (b (3 * THREAD_NUM - N + (s - 3 * THREAD_NUM) + p.pos))
  else b s

/-- one iteration of the main loop of `mtgp32_uint32_kernel`
(source lines 184-223): the four phases in order. -/
def batchU (p : mtgp32_params_fast_t) (b : Nat → Nat) : Nat → Nat :=
  phase4 p (phase3u p (phase2u p (phase1 p b)))

/-- one iteration of the main loop of `mtgp32_single_kernel`
(source lines 250-293): the four phases in order. -/
def batchS (p : mtgp32_params_fast_t) (b : Nat → Nat) : Nat → Nat :=
  phase4 p (phase3s p (phase2s p (phase1 p b)))

/-- number of iterations of `for (int i = 0; i < size; i += LARGE_SIZE)`:
`⌈size / LARGE_SIZE⌉`. -/
def nBatches (size : Nat) : Nat := (size + (LARGE_SIZE - 1)) / LARGE_SIZE

/-- the tempered output words of one `mtgp32_uint32_kernel` batch started on
buffer `b`: output position `j` (`0 ≤ j < LARGE_SIZE`) is produced by phase
`j / THREAD_NUM`, thread `j % THREAD_NUM`, as `temper(r, helper)` where `r`
is the freshly written word `status[j]` and `helper` is the source's
tempering read for that phase:
phase 1 `status[LARGE_SIZE-N+tid+pos-1]` (line 191),
phase 2 `status[(5*THREAD_NUM-N+tid+pos-1) % LARGE_SIZE]` (line 201),
phase 3 `status[tid+pos-1+6*THREAD_NUM-N]` (line 211, no reduction),
phase 4 `status[tid+pos-1+3*THREAD_NUM-N]` (line 220).
The helper index sums are reassociated with the positive block constant
first so that `Nat` subtraction agrees with the C `int` arithmetic. -/
def batch_outU (p : mtgp32_params_fast_t) (b : Nat → Nat) (j : Nat) : Nat :=
  if j < THREAD_NUM then
    temper p (phase1 p b j) (b (LARGE_SIZE - N + j + p.pos - 1))
  else if j < 2 * THREAD_NUM then
    temper p (phase2u p (phase1 p b) j)
      (phase1 p b ((5 * THREAD_NUM - N + (j - THREAD_NUM) + p.pos - 1) % LARGE_SIZE))
  else if j < 3 * THREAD_NUM then
    temper p (phase3u p (phase2u p (phase1 p b)) j)
      (phase2u p (phase1 p b) (6 * THREAD_NUM - N + (j - 2 * THREAD_NUM) + p.pos - 1))
  else
    temper p (phase4 p (phase3u p (phase2u p (phase1 p b))) j)
      (phase3u p (phase2u p (phase1 p b))
        (3 * THREAD_NUM - N + (j - 3 * THREAD_NUM) + p.pos - 1))

/-- the final saved state of `mtgp32_uint32_kernel` (source lines 172-226):
`status_read`, then `⌈size/LARGE_SIZE⌉` batches, then `status_write`.
`g` is the (undefined) shared-memory content at kernel entry, `d` the saved
state, `size` the per-block output count passed by `make_uint32_random`. -/
def mtgp32_uint32_kernel_status (p : mtgp32_params_fast_t) (g d : Nat → Nat)
    (size : Nat) : Nat → Nat :=
  status_write ((batchU p)^[nBatches size] (status_read g d)) d

set_option linter.unusedVariables false in
/-- output word `m` of `mtgp32_uint32_kernel` for one block
(`d_data[size*bid + m]`, `m < size`): batch `m / LARGE_SIZE`, position
`m % LARGE_SIZE` within the batch. -/
def mtgp32_uint32_kernel_out (p : mtgp32_params_fast_t) (g d : Nat → Nat)
    (size m : Nat) : Nat :=
  batch_outU p ((batchU p)^[m / LARGE_SIZE] (status_read g d)) (m % LARGE_SIZE)

/-- the final saved state of `mtgp32_single_kernel` (source lines 236-297). -/
def mtgp32_single_kernel_status (p : mtgp32_params_fast_t) (g d : Nat → Nat)
    (size : Nat) : Nat → Nat :=
  status_write ((batchS p)^[nBatches size] (status_read g d)) d

/-- Sequential single-lane reference (the comparison definition for the
refinement claims, following the spec's sequential-equivalence oracle):
history word `n` is the initial state for `n < N` and
`para_rec(word (n-N), word (n-N+1), word (n-N+pos))` for `n ≥ N`.
Structural fuel makes the definition computable; fuel `n` suffices for any
tap `pos ≤ N - 1` because every recursive index is then at most `n - 1`. -/
def seq_state_fuel (p : mtgp32_params_fast_t) (d : Nat → Nat) :
    Nat → Nat → Nat
  | 0, n => if n < N then d n else 0
  | fuel + 1, n =>
    if n < N then d n
    else
      para_rec p (seq_state_fuel p d fuel (n - N))
        (seq_state_fuel p d fuel (n - N + 1))
        (seq_state_fuel p d fuel (n - N + p.pos))

/-- history word `n` of the sequential reference. -/
def seq_state (p : mtgp32_params_fast_t) (d : Nat → Nat) (n : Nat) : Nat :=
  seq_state_fuel p d n n

/-- output word `m ≥ 0` of the sequential reference: the recurrence word
`N + m` tempered with history word `m + pos - 1`
(the kernel's `status[... + tid + pos - 1]` read). -/
def seq_out (p : mtgp32_params_fast_t) (d : Nat → Nat) (m : Nat) : Nat :=
  temper p (seq_state p d (N + m)) (seq_state p d (m + p.pos - 1))

/-- source lines 303-349, `make_constant`: uploads `params[i].pos`,
`params[i].sh1`, `params[i].sh2` verbatim into the per-block constant tables
`pos_tbl`, `sh1_tbl`, `sh2_tbl`.  No value is inspected or validated; the
only failure paths in the source are host `malloc` failures. -/
def make_constant (ps : List mtgp32_params_fast_t) :
    List Nat × List Nat × List Nat :=
  (ps.map (fun p => p.pos), ps.map (fun p => p.sh1), ps.map (fun p => p.sh2))

/-- source lines 357-396, `make_texture`: builds the three flattened texture
tables, entry `i * TBL_SIZE + j` holding `params[i].tbl[j]`,
`params[i].tmp_tbl[j]`, `params[i].flt_tmp_tbl[j]` respectively
(`j < TBL_SIZE`).  Again no validation: values are copied verbatim. -/
def make_texture (ps : List mtgp32_params_fast_t) :
    List Nat × List Nat × List Nat :=
  (ps.flatMap (fun p => (List.range TBL_SIZE).map (fun j => p.tbl.getD j 0)),
   ps.flatMap (fun p => (List.range TBL_SIZE).map (fun j => p.tmp_tbl.getD j 0)),
   ps.flatMap (fun p => (List.range TBL_SIZE).map (fun j => p.flt_tmp_tbl.getD j 0)))

/-- source lines 650, 659-662 in `main`:
`num_unit = LARGE_SIZE * block_num; r = num_data % num_unit;
if (r != 0) num_data = num_data + num_unit - r;`. -/
def num_unit (block_num : Nat) : Nat := LARGE_SIZE * block_num

/-- the rounding `main` applies to `num_data` before calling the generators. -/
def main_round (num_data block_num : Nat) : Nat :=
  let r := num_data % num_unit block_num
  if r ≠ 0 then num_data + num_unit block_num - r else num_data

/-- the spec's admissible-count predicate for `generate`: a positive multiple
of the batch size `W = LARGE_SIZE` (per block). -/
def validCount (c : Nat) : Prop := 0 < c ∧ c % LARGE_SIZE = 0

instance : DecidablePred validCount := fun c => by
  unfold validCount; infer_instance

/-- the spec's ParameterSet validity predicate (spec section 7,
ConfigurationError conditions): `pos ∈ [1, N-1]`, `sh1`, `sh2 ∈ [1, 31]`,
each lookup table with exactly `TBL_SIZE = 16` entries. -/
def paramSetValid (p : mtgp32_params_fast_t) : Prop :=
  (1 ≤ p.pos ∧ p.pos ≤ N - 1) ∧ (1 ≤ p.sh1 ∧ p.sh1 ≤ 31) ∧
    (1 ≤ p.sh2 ∧ p.sh2 ≤ 31) ∧ p.tbl.length = TBL_SIZE ∧
    p.tmp_tbl.length = TBL_SIZE ∧ p.flt_tmp_tbl.length = TBL_SIZE

instance : DecidablePred paramSetValid := fun p => by
  unfold paramSetValid; infer_instance

/-! Concrete test data used by the witness and counterexample theorems. -/

/-- an all-zero 16-entry lookup table. -/
def zeroTbl : List Nat := List.replicate TBL_SIZE 0

/-- a concrete, spec-valid parameter record: `pos = 1`, `sh1 = sh2 = 1`,
all-zero tables. -/
def P0 : mtgp32_params_fast_t := ⟨1, 1, 1, zeroTbl, zeroTbl, zeroTbl⟩

/-- a concrete parameter record whose float-tempering table consists of
16 copies of `0x3F800000` (sign 0, exponent 127, zero mantissa). -/
def PF : mtgp32_params_fast_t :=
  ⟨1, 1, 1, zeroTbl, zeroTbl, List.replicate TBL_SIZE 0x3F800000⟩

/-- a concrete saved state: word 0 is `0xff800000`, the rest are 0. -/
def d1 : Nat → Nat := fun k => if k = 0 then 0xff800000 else 0

/-- one possible content of uninitialized shared memory: all `0xff800000`. -/
def g0 : Nat → Nat := fun _ => 0xff800000

/-- another possible content of uninitialized shared memory: all zero. -/
def g1 : Nat → Nat := fun _ => 0

/-- a concrete saved state for the status-protocol witness. -/
def dW : Nat → Nat := fun k => k + 100

/-- a second concrete saved state agreeing with `dW` on the `N` in-bounds
words and differing beyond them. -/
def dW2 : Nat → Nat := fun k => if k < N then k + 100 else 0

/-- a concrete prior shared-memory content for the status evaluations. -/
def gW : Nat → Nat := fun _ => 424242

/-! Helper lemmas. -/

/-- masking with `0x0f` is reduction mod 16. -/
theorem land_fifteen (n : Nat) : n &&& 15 = n % 16 := by
  have h := Nat.and_pow_two_sub_one_eq_mod n 4
  norm_num at h
  exact h

/-- shifting right distributes over xor. -/
theorem xor_shiftRight (a b k : Nat) :
    (a ^^^ b) >>> k = (a >>> k) ^^^ (b >>> k) := by
  apply Nat.eq_of_testBit_eq
  intro i
  simp [Nat.testBit_shiftRight, Nat.testBit_xor]

/-- an in-range `getD` lookup returns a member of the list. -/
theorem getD_mem (l : List Nat) (i : Nat) (h : i < l.length) :
    l.getD i 0 ∈ l := by
  rw [List.getD_eq_getElem?_getD, List.getElem?_eq_getElem h]
  simp

/-- any `getD` lookup with default 0 is below a positive bound dominating the
list entries. -/
theorem getD_lt (l : List Nat) (i : Nat) (c : Nat) (hc : 0 < c)
    (h : ∀ e ∈ l, e < c) : l.getD i 0 < c := by
  by_cases hi : i < l.length
  · exact h _ (getD_mem l i hi)
  · rw [List.getD_eq_getElem?_getD, List.getElem?_eq_none (by omega)]
    simpa using hc

/-! Claim theorems. -/

/-- C3: `para_rec` is a pure total function of its 32-bit inputs and computes
exactly `x = (X1 & 0xff800000) ^ X2`, then `x ^= (x << sh1) mod 2^32`, then
`y = x ^ (Y >> sh2)`, then `y ^ paramTable[y mod 16]` — the nonlinear
correction is selected by exactly the low 4 bits of `y`; on 32-bit inputs
with a 32-bit table the result is again a 32-bit word. -/
theorem C3_para_rec_spec (p : mtgp32_params_fast_t) (X1 X2 Y : Nat)
    (h1 : X1 < W32) (h2 : X2 < W32) (h3 : Y < W32)
    (ht : ∀ e ∈ p.tbl, e < W32) :
    (para_rec p X1 X2 Y =
      (let x := (X1 &&& 0xff800000) ^^^ X2
       let x2 := x ^^^ ((x <<< p.sh1) % W32)
       let y := x2 ^^^ (Y >>> p.sh2)
       y ^^^ p.tbl.getD (y % 16) 0)) ∧
    para_rec p X1 X2 Y < W32 := by
  constructor
  · simp only [para_rec, mask]
    rw [land_fifteen]
  · have hW : W32 = 2 ^ 32 := rfl
    simp only [para_rec, mask, hW] at ht ⊢
    apply Nat.xor_lt_two_pow
    · apply Nat.xor_lt_two_pow
      · apply Nat.xor_lt_two_pow
        · apply Nat.xor_lt_two_pow
          · exact Nat.lt_of_le_of_lt Nat.and_le_left h1
          · exact h2
        · exact Nat.mod_lt _ (Nat.two_pow_pos 32)
      · rw [Nat.shiftRight_eq_div_pow]
        exact Nat.lt_of_le_of_lt (Nat.div_le_self _ _) h3
    · exact getD_lt _ _ _ (Nat.two_pow_pos 32) ht

/-- C3 witness: the theorem applied at a concrete valid input. -/
theorem C3_para_rec_spec_witness :
    (∀ e ∈ P0.tbl, e < W32) ∧ para_rec P0 5 7 9 < W32 :=
  ⟨by decide,
   (C3_para_rec_spec P0 5 7 9 (by decide) (by decide) (by decide)
     (by decide)).2⟩

/-- C5: `temper` computes `t ^= t >> 16; t ^= t >> 8;` and then
`V ^ temperTable[t mod 16]`; it is a pure total function and on 32-bit
inputs with a 32-bit table its result is again a 32-bit word. -/
theorem C5_temper_spec (p : mtgp32_params_fast_t) (V T : Nat)
    (hv : V < W32) (ht : ∀ e ∈ p.tmp_tbl, e < W32) :
    (temper p V T =
      (let t1 := T ^^^ (T >>> 16)
       let t2 := t1 ^^^ (t1 >>> 8)
       V ^^^ p.tmp_tbl.getD (t2 % 16) 0)) ∧
    temper p V T < W32 := by
  constructor
  · simp only [temper]
    rw [land_fifteen]
  · have hW : W32 = 2 ^ 32 := rfl
    simp only [temper, hW] at ht hv ⊢
    exact Nat.xor_lt_two_pow hv (getD_lt _ _ _ (Nat.two_pow_pos 32) ht)

/-- C5 witness: the theorem applied at a concrete valid input. -/
theorem C5_temper_spec_witness :
    (∀ e ∈ P0.tmp_tbl, e < W32) ∧ temper P0 12345 67890 < W32 :=
  ⟨by decide, (C5_temper_spec P0 12345 67890 (by decide) (by decide)).2⟩

/-- C6: `temper_single` computes `(V >> 9) ^ floatTemperTable[t mod 16]` with
the same `t` reduction as the integer tempering, and whenever every table
entry has its upper 9 bits equal to those of `0x3F800000` the result lies in
the integer range `[0x3F800000, 0x40000000)`, i.e. reinterpreted as an
IEEE-754 single it lies in `[1.0, 2.0)`. -/
theorem C6_temper_single_spec (p : mtgp32_params_fast_t) (V T : Nat)
    (hv : V < W32) (hlen : p.flt_tmp_tbl.length = TBL_SIZE)
    (ht : ∀ e ∈ p.flt_tmp_tbl, e >>> 23 = 0x3F800000 >>> 23) :
    (temper_single p V T =
      (let t1 := T ^^^ (T >>> 16)
       let t2 := t1 ^^^ (t1 >>> 8)
       (V >>> 9) ^^^ p.flt_tmp_tbl.getD (t2 % 16) 0)) ∧
    0x3F800000 ≤ temper_single p V T ∧
    temper_single p V T < 0x40000000 := by
  refine ⟨by simp only [temper_single]; rw [land_fifteen], ?_⟩
  have hform : temper_single p V T =
      (V >>> 9) ^^^ p.flt_tmp_tbl.getD
        ((T ^^^ T >>> 16 ^^^ (T ^^^ T >>> 16) >>> 8) &&& 0x0f) 0 := rfl
  rw [hform]
  set t2 := T ^^^ T >>> 16 ^^^ (T ^^^ T >>> 16) >>> 8 with ht2
  set M := p.flt_tmp_tbl.getD (t2 &&& 0x0f) 0 with hM
  have hidx : t2 &&& 0x0f < p.flt_tmp_tbl.length := by
    rw [hlen]
    have h16 := land_fifteen t2
    have hlt : t2 % 16 < 16 := Nat.mod_lt _ (by norm_num)
    simp only [TBL_SIZE]
    omega
  have hMtop : M >>> 23 = 127 := by
    have h := ht M (getD_mem _ _ hidx)
    rw [hM, h]
    decide
  have hV9 : V >>> 9 >>> 23 = 0 := by
    rw [← Nat.shiftRight_add, Nat.shiftRight_eq_div_pow]
    exact Nat.div_eq_of_lt (by simpa [W32] using hv)
  have hr : (V >>> 9 ^^^ M) >>> 23 = 127 := by
    rw [xor_shiftRight, hV9, hMtop]
    decide
  have hdiv : (V >>> 9 ^^^ M) / 2 ^ 23 = 127 := by
    rw [← Nat.shiftRight_eq_div_pow]
    exact hr
  have hsum := Nat.div_add_mod (V >>> 9 ^^^ M) (2 ^ 23)
  have hmod : (V >>> 9 ^^^ M) % 2 ^ 23 < 2 ^ 23 :=
    Nat.mod_lt _ (Nat.two_pow_pos 23)
  rw [hdiv] at hsum
  norm_num at hsum hmod ⊢
  omega

/-- C6 witness: the theorem applied at a concrete parameter record whose
float table is 16 copies of `0x3F800000`. -/
theorem C6_temper_single_spec_witness :
    (∀ e ∈ PF.flt_tmp_tbl, e >>> 23 = 0x3F800000 >>> 23) ∧
    0x3F800000 ≤ temper_single PF 123456789 987654 ∧
    temper_single PF 123456789 987654 < 0x40000000 :=
  ⟨by decide,
   (C6_temper_single_spec PF 123456789 987654 (by decide) (by decide)
     (by decide)).2⟩

set_option maxRecDepth 10000 in
/-- C4 (bug evaluation): the save/restore copies are NOT the claimed exact
`N`-word, in-bounds copies.  The source's third-copy guard
`if (tid < N - THREAD_NUM)` (lines 134 and 157) is vacuously true for every
`tid < THREAD_NUM`, so the third copy runs for all 256 threads instead of
the 214 an exact copy needs.  Concretely: `status_read` reads the
out-of-range saved-state index 767 (`dW` and `dW2` agree on all `N`
in-bounds words, yet the filled buffers differ) and places it at buffer
slot `1065 ≥ LARGE_SIZE`; `status_write` overwrites saved-state index
`767 ≥ N` (the next block's word 41) from that out-of-bounds slot. -/
theorem C4_bug_eval :
    (∀ k, k < N → dW k = dW2 k) ∧
    status_read gW dW 1065 ≠ status_read gW dW2 1065 ∧
    status_read gW dW 1065 = dW 767 ∧
    ¬ (1065 < LARGE_SIZE) ∧ ¬ (767 < N) ∧
    status_write (fun j => j + 2000) dW 767 = 3065 := by decide

/-- the read indices of phase 1 of both kernels (source lines 186-191):
offset `dlt` ranges over `0`, `1`, `pos - 1`, `pos`. -/
def p1_read (tid dlt : Nat) : Nat := LARGE_SIZE - N + tid + dlt

/-- the `% LARGE_SIZE`-reduced read indices of phase 2 of
`mtgp32_uint32_kernel` (source lines 195-201). -/
def p2u_read (tid dlt : Nat) : Nat :=
  (5 * THREAD_NUM - N + tid + dlt) % LARGE_SIZE

/-- the un-reduced read indices of phase 2 of `mtgp32_single_kernel`
(source lines 261-267). -/
def p2s_read (tid dlt : Nat) : Nat := 5 * THREAD_NUM - N + tid + dlt

/-- the un-reduced read indices of phase 3 of `mtgp32_uint32_kernel`
(source lines 206-211). -/
def p3u_read (tid dlt : Nat) : Nat := 6 * THREAD_NUM - N + tid + dlt

/-- the `% LARGE_SIZE`-reduced read indices of phase 3 of
`mtgp32_single_kernel` (source lines 272-279). -/
def p3s_read (tid dlt : Nat) : Nat :=
  (6 * THREAD_NUM - N + tid + dlt) % LARGE_SIZE

/-- the read indices of phase 4 of both kernels (source lines 215-220). -/
def p4_read (tid dlt : Nat) : Nat := 3 * THREAD_NUM - N + tid + dlt

/-- C9 (amended): for every thread `tid < THREAD_NUM`, tap
`pos ∈ [1, N - THREAD_NUM]` and read offset `dlt ≤ pos` (the offsets used
are `0`, `1`, `pos - 1`, `pos`):
the first two `status_read`/`status_write` copies are always in bounds
(buffer slots below `LARGE_SIZE`, saved-state indices below `N`); the
source's third-copy guard `tid < N - THREAD_NUM` is vacuously true, and the
third copy is in bounds (buffer slot below `LARGE_SIZE` and saved-state
index below `N`) exactly when `tid < N - 2*THREAD_NUM = 214`; every
`% LARGE_SIZE`-reduced kernel read index is below `LARGE_SIZE`; the
un-reduced phase-1 and phase-4 read indices and all phase write slots are
below `LARGE_SIZE`; the un-reduced phase-3 indices of
`mtgp32_uint32_kernel` are below `LARGE_SIZE` exactly when
`tid + dlt < N - 2*THREAD_NUM` (so thread 255 is out of bounds for every
`pos`, see `C9_counterexample`); and the un-reduced phase-2 indices of
`mtgp32_single_kernel` are below `LARGE_SIZE` exactly when
`tid + dlt < N - THREAD_NUM` (in bounds for every thread whenever
`pos ≤ N - 2*THREAD_NUM`, out of bounds for some thread once
`pos > N - 2*THREAD_NUM`). -/
theorem C9_index_bounds (tid pos dlt : Nat) (htid : tid < THREAD_NUM)
    (hpos1 : 1 ≤ pos) (hpos : pos ≤ N - THREAD_NUM) (hdlt : dlt ≤ pos) :
    (LARGE_SIZE - N + tid < LARGE_SIZE) ∧
    (LARGE_SIZE - N + THREAD_NUM + tid < LARGE_SIZE) ∧
    (tid < N) ∧ (THREAD_NUM + tid < N) ∧
    (tid < N - THREAD_NUM) ∧
    ((6 * THREAD_NUM - N + tid < LARGE_SIZE ∧ 2 * THREAD_NUM + tid < N)
      ↔ tid < N - 2 * THREAD_NUM) ∧
    (p2u_read tid dlt < LARGE_SIZE) ∧
    (p3s_read tid dlt < LARGE_SIZE) ∧
    (p1_read tid dlt < LARGE_SIZE) ∧
    (p4_read tid dlt < LARGE_SIZE) ∧
    (3 * THREAD_NUM + tid < LARGE_SIZE) ∧
    (p3u_read tid dlt < LARGE_SIZE ↔ tid + dlt < N - 2 * THREAD_NUM) ∧
    (p2s_read tid dlt < LARGE_SIZE ↔ tid + dlt < N - THREAD_NUM) := by
  simp only [p1_read, p2u_read, p2s_read, p3u_read, p3s_read, p4_read,
    LARGE_SIZE, THREAD_NUM, N] at htid hpos1 hpos hdlt ⊢
  omega

/-- C9 witness: the bounds theorem applied at `tid = 0`, `pos = 1`,
`dlt = 1`. -/
theorem C9_index_bounds_witness :
    p2u_read 0 1 < LARGE_SIZE ∧ p1_read 0 1 < LARGE_SIZE :=
  ⟨(C9_index_bounds 0 1 1 (by decide) (by decide) (by decide)
      (by decide)).2.2.2.2.2.2.1,
   (C9_index_bounds 0 1 1 (by decide) (by decide) (by decide)
      (by decide)).2.2.2.2.2.2.2.2.1⟩

/-- C9 counterexample: thread `tid = 255` is an admissible thread id and is
admitted by the source's third-copy guard (`255 < N - THREAD_NUM`), yet the
first phase-3 read index of `mtgp32_uint32_kernel`, `6*THREAD_NUM - N + tid`
(offset `dlt = 0`, independent of `pos`), equals `1065` and is NOT below
`LARGE_SIZE = 1024` — the same expression is the slot the third status copy
touches — and the third copy's saved-state index `2*THREAD_NUM + tid = 767`
is NOT below `N = 726`: the buffer and the state array are both overrun. -/
theorem C9_counterexample :
    255 < THREAD_NUM ∧ 255 < N - THREAD_NUM ∧
    ¬ (p3u_read 255 0 < LARGE_SIZE) ∧ ¬ (2 * THREAD_NUM + 255 < N) := by
  decide

/-- an in-range `getD` over a mapped list projects the element. -/
theorem map_getD (f : mtgp32_params_fast_t → Nat)
    (ps : List mtgp32_params_fast_t) (i : Nat) (hi : i < ps.length) :
    (ps.map f).getD i 0 = f (ps.getD i default) := by
  rw [List.getD_eq_getElem?_getD, List.getElem?_map,
    List.getElem?_eq_getElem hi, List.getD_eq_getElem?_getD,
    List.getElem?_eq_getElem hi]
  rfl

/-- a 16-entry block built from `List.range TBL_SIZE` projects pointwise. -/
theorem range_map_getD (fn : Nat → Nat) (j : Nat) (hj : j < TBL_SIZE) :
    ((List.range TBL_SIZE).map fn).getD j 0 = fn j := by
  rw [List.getD_eq_getElem?_getD, List.getElem?_map,
    List.getElem?_range (by simpa [TBL_SIZE] using hj)]
  rfl

/-- indexing the flattened texture table at `i * TBL_SIZE + j` returns entry
`j` of block `i`: block `i` of the uploaded table depends only on
`params[i]`. -/
theorem flat_blocks_getD (f : mtgp32_params_fast_t → List Nat)
    (ps : List mtgp32_params_fast_t) (i j : Nat) (hi : i < ps.length)
    (hj : j < TBL_SIZE) :
    (ps.flatMap
      (fun p => (List.range TBL_SIZE).map (fun k => (f p).getD k 0))).getD
        (i * TBL_SIZE + j) 0 = (f (ps.getD i default)).getD j 0 := by
  induction ps generalizing i with
  | nil => simp at hi
  | cons p rest ih =>
    cases i with
    | zero =>
      rw [List.flatMap_cons, Nat.zero_mul, Nat.zero_add,
        List.getD_append _ _ _ _ (by simpa [TBL_SIZE] using hj),
        range_map_getD _ _ hj]
      rfl
    | succ i2 =>
      have hlen : ((List.range TBL_SIZE).map
          (fun k => (f p).getD k 0)).length = TBL_SIZE := by
        simp
      have hidx : (i2 + 1) * TBL_SIZE + j
          = TBL_SIZE + (i2 * TBL_SIZE + j) := by ring
      rw [List.flatMap_cons, hidx,
        List.getD_append_right _ _ _ _ (by omega)]
      have hsub : TBL_SIZE + (i2 * TBL_SIZE + j)
          - ((List.range TBL_SIZE).map (fun k => (f p).getD k 0)).length
          = i2 * TBL_SIZE + j := by
        rw [hlen]; omega
      rw [hsub, ih i2 (by simpa using Nat.lt_of_succ_lt_succ hi)]
      rfl

/-- C8 (amended): ParameterSet loading performs no validation at all:
`make_constant` and `make_texture` copy `pos`, `sh1`, `sh2` and the 16
entries of each lookup table verbatim into block `i`'s constants and texture
slice, succeeding for arbitrary values; block `i`'s loaded data depends only
on `params[i]`, so one stream's parameters never affect another stream's. -/
theorem C8_no_validation (ps : List mtgp32_params_fast_t) (i j : Nat)
    (hi : i < ps.length) (hj : j < TBL_SIZE) :
    (make_constant ps).1.getD i 0 = (ps.getD i default).pos ∧
    (make_constant ps).2.1.getD i 0 = (ps.getD i default).sh1 ∧
    (make_constant ps).2.2.getD i 0 = (ps.getD i default).sh2 ∧
    (make_texture ps).1.getD (i * TBL_SIZE + j) 0
      = (ps.getD i default).tbl.getD j 0 ∧
    (make_texture ps).2.1.getD (i * TBL_SIZE + j) 0
      = (ps.getD i default).tmp_tbl.getD j 0 ∧
    (make_texture ps).2.2.getD (i * TBL_SIZE + j) 0
      = (ps.getD i default).flt_tmp_tbl.getD j 0 :=
  ⟨map_getD (fun p => p.pos) ps i hi, map_getD (fun p => p.sh1) ps i hi,
   map_getD (fun p => p.sh2) ps i hi,
   flat_blocks_getD (fun p => p.tbl) ps i j hi hj,
   flat_blocks_getD (fun p => p.tmp_tbl) ps i j hi hj,
   flat_blocks_getD (fun p => p.flt_tmp_tbl) ps i j hi hj⟩

/-- C8 witness: the loading theorem applied to a concrete parameter list. -/
theorem C8_no_validation_witness :
    (make_constant [P0, PF]).1.getD 1 0 = PF.pos ∧
    (make_texture [P0, PF]).2.2.getD (1 * TBL_SIZE + 3) 0
      = PF.flt_tmp_tbl.getD 3 0 :=
  ⟨(C8_no_validation [P0, PF] 1 3 (by decide) (by decide)).1,
   (C8_no_validation [P0, PF] 1 3 (by decide) (by decide)).2.2.2.2.2⟩

/-- a parameter record violating every ParameterSet constraint:
`pos = 0 ∉ [1, N-1]`, `sh1 = sh2 = 40 ∉ [1, 31]`, empty tables. -/
def p_bad : mtgp32_params_fast_t := ⟨0, 40, 40, [], [], []⟩

/-- C8 counterexample: construction does NOT raise on invalid parameters.
`p_bad` violates the claimed constraints, yet `make_constant` loads the
invalid scalars verbatim and `make_texture` silently zero-pads the
wrong-length table; there is no error path (the modelled functions are
total, mirroring the source, whose only aborts are host `malloc`
failures). -/
theorem C8_counterexample :
    ¬ paramSetValid p_bad ∧
    make_constant [p_bad] = ([0], [40], [40]) ∧
    (make_texture [p_bad]).1 = List.replicate TBL_SIZE 0 := by decide

/-- C7 (amended): the engine performs no count validation — the rounding to
a batch multiple lives only in the external driver `main`, which replaces
`num_data` by the least multiple of `num_unit = LARGE_SIZE * block_num`
that is `≥ num_data`; the kernel itself executes
`⌈size / LARGE_SIZE⌉ ≥ 1` batches for every positive `size`. -/
theorem C7_driver_rounding (nd bn : Nat) (hb : 0 < bn) (hd : 0 < nd) :
    main_round nd bn % num_unit bn = 0 ∧ 0 < main_round nd bn ∧
    nd ≤ main_round nd bn ∧ main_round nd bn < nd + num_unit bn ∧
    0 < nBatches nd := by
  have hu : 0 < num_unit bn := by
    simp only [num_unit, LARGE_SIZE, THREAD_NUM]
    omega
  have hbatch : 0 < nBatches nd := by
    simp only [nBatches, LARGE_SIZE, THREAD_NUM]
    omega
  have hqr : num_unit bn * (nd / num_unit bn) + nd % num_unit bn = nd :=
    Nat.div_add_mod nd (num_unit bn)
  have hrlt : nd % num_unit bn < num_unit bn := Nat.mod_lt nd hu
  simp only [main_round]
  by_cases hr : nd % num_unit bn ≠ 0
  · rw [if_pos hr]
    have h0 : nd + num_unit bn - nd % num_unit bn
        = num_unit bn * (nd / num_unit bn + 1) := by
      rw [Nat.mul_add, Nat.mul_one]
      omega
    refine ⟨?_, by omega, by omega, by omega, hbatch⟩
    rw [h0, Nat.mul_mod_right]
  · rw [if_neg hr]
    push_neg at hr
    exact ⟨hr, hd, Nat.le_refl nd, by omega, hbatch⟩

/-- C7 witness: the rounding theorem at the source's defaults
(`num_data = 10000000`, `block_num = 81`). -/
theorem C7_driver_rounding_witness :
    main_round 10000000 81 % num_unit 81 = 0 ∧
    10000000 ≤ main_round 10000000 81 :=
  ⟨(C7_driver_rounding 10000000 81 (by decide) (by decide)).1,
   (C7_driver_rounding 10000000 81 (by decide) (by decide)).2.2.1⟩

/-- C7 counterexample: `1` is not a positive multiple of
`W = LARGE_SIZE = 1024`, yet `mtgp32_uint32_kernel` invoked with
`size = 1` raises nothing and does NOT leave the stream state unmodified:
it runs a full batch and overwrites the saved state (here word 0 changes).
The engine has no rejection path at all. -/
theorem C7_counterexample :
    ¬ validCount 1 ∧
    mtgp32_uint32_kernel_status P0 g1 d1 1 0 ≠ d1 0 := by decide

/-- C1 (bug evaluation): a concrete spec-valid parameter record (`P0`,
`pos = 1`), a concrete saved state `d1`, and the admissible count
`size = LARGE_SIZE = 1024`, on which `mtgp32_uint32_kernel` output word 767
(phase 3, thread 255) differs from the sequential single-lane reference:
the kernel computes it from shared-memory slots `1065` and `1066`, both
outside the `LARGE_SIZE`-word buffer — slot `1065` holds the adjacent
saved-state word `d1 767` smeared there by the (itself overrunning) third
`status_read` copy, slot `1066` holds the uninitialized launch content
`g0 1066`; neither is part of the logical `N`-word state. -/
theorem C1_bug_eval :
    paramSetValid P0 ∧ validCount 1024 ∧
    mtgp32_uint32_kernel_out P0 g0 d1 1024 767 ≠ seq_out P0 d1 767 := by
  decide

/-- C2 (bug evaluation): from the same saved state `d1`, running
`mtgp32_uint32_kernel` with `size = 1024` and then again with `size = 1024`
on the state it saved does not reproduce the first `2048` words of a single
`size = 2048` run: combined word `1791` (= word 767 of the second call)
differs, because phase 3 reads the out-of-bounds slot `1066`, whose
uninitialized launch content (`g0 1066 = 0xff800000` within the single long
run, `g1 1066 = 0` in the second launch) is not part of the saved state. -/
theorem C2_bug_eval :
    validCount 1024 ∧
    mtgp32_uint32_kernel_out P0 g1
        (mtgp32_uint32_kernel_status P0 g0 d1 1024) 1024 767 ≠
      mtgp32_uint32_kernel_out P0 g0 d1 2048 1791 := by
  decide

/-- C10 (bug evaluation): with the same spec-valid parameters `P0`, state
`d1`, entry shared-memory content `g0` and count `1024`, the two kernels do
NOT leave identical saved states: saved word 469 (buffer slot 767, phase 3,
thread 255) differs, because `mtgp32_uint32_kernel` reads the un-reduced
out-of-bounds indices `1065`/`1066` (adjacent-state smear and launch
residue) where `mtgp32_single_kernel` wraps them to `41`/`42` (this batch's
words 41/42). -/
theorem C10_bug_eval :
    paramSetValid P0 ∧ validCount 1024 ∧
    mtgp32_uint32_kernel_status P0 g0 d1 1024 469 ≠
      mtgp32_single_kernel_status P0 g0 d1 1024 469 := by
  decide

end MTGP32
